import Mathlib

/-!
Verification of the Tuteliq Node SDK transport layer: error classification,
request execution with timeout, bounded retry, client-side validation, the
combined analyze operation, constructor validation, and the streaming
session lifecycle.  Definitions are shallow embeddings of src/client.ts;
components whose source file is absent from the snapshot (the retry loop of
utils/retry.ts and the voice-stream session) are modelled from the spec and
marked as such in their doc comments.
-/

namespace Tuteliq

/-- The ten error kinds of the discriminated error hierarchy
(src/errors.ts classes, as consumed by client.ts). -/
inductive ErrorKind where
  | validation
  | authentication
  | tierAccess
  | notFound
  | rateLimit
  | quotaExceeded
  | server
  | timeout
  | network
  | generic
  deriving DecidableEq, Repr

/-- The `error` member of a structured API error body
(`{ error: { code, message, details?, suggestion?, links? } }`).
All fields optional because the parsed body may be any JSON value. -/
structure ApiErrorBody where
  code : Option String := none
  message : Option String := none
  details : Option String := none
  suggestion : Option String := none
  links : Option (List (String × String)) := none
  deriving DecidableEq, Repr

/-- A parsed error-response body; `error := none` models `{}` or any body
without an `error` member. -/
structure ApiError where
  error : Option ApiErrorBody := none
  deriving DecidableEq, Repr

/-- The error value thrown by the client: kind plus the fields the
errors.ts constructors store, as passed at each client.ts call site. -/
structure TuteliqErr where
  kind : ErrorKind
  message : String
  code : Option String := none
  suggestion : Option String := none
  links : Option (List (String × String)) := none
  details : Option String := none
  retryAfter : Option Int := none
  status : Option Nat := none
  deriving DecidableEq, Repr

/-- Response headers consumed by client.ts, each as the raw header string
(`none` = header absent). -/
structure Headers where
  xRequestId : Option String := none
  xMonthlyLimit : Option String := none
  xMonthlyUsed : Option String := none
  xMonthlyRemaining : Option String := none
  xRateLimitLimit : Option String := none
  xRateLimitRemaining : Option String := none
  xRateLimitReset : Option String := none
  xUsageWarning : Option String := none
  retryAfter : Option String := none
  deriving DecidableEq, Repr

/-- Value of a decimal digit run. -/
def digitsVal (ds : List Char) : Nat :=
  ds.foldl (fun a c => 10 * a + (c.toNat - 48)) 0

/-- Parse a leading run of decimal digits; `none` when there is none. -/
def parseDigitRun (cs : List Char) : Option Nat :=
  let ds := cs.takeWhile Char.isDigit
  if ds.isEmpty then none else some (digitsVal ds)

/-- JavaScript `parseInt(s, 10)`: skip leading spaces, optional sign,
longest digit prefix; `none` models NaN. -/
def jsParseInt (s : String) : Option Int :=
  let cs := s.data.dropWhile (fun c => c = ' ')
  match cs with
  | '-' :: rest => (parseDigitRun rest).map (fun n => -(n : Int))
  | '+' :: rest => (parseDigitRun rest).map (fun n => (n : Int))
  | _ => (parseDigitRun cs).map (fun n => (n : Int))

/-- JavaScript `a || d` on an optional string: the empty string is falsy. -/
def jsStrOr (o : Option String) (d : String) : String :=
  match o with
  | some s => if s = "" then d else s
  | none => d

/-- JavaScript truthiness of an optional header string. -/
def truthyS (o : Option String) : Bool :=
  match o with
  | some s => decide (s ≠ "")
  | none => false

/-- `body.error?.message`. -/
def apiMessage (b : ApiError) : Option String := b.error.bind ApiErrorBody.message

/-- `body.error?.code`. -/
def apiCode (b : ApiError) : Option String := b.error.bind ApiErrorBody.code

/-- `body.error?.details`. -/
def apiDetails (b : ApiError) : Option String := b.error.bind ApiErrorBody.details

/-- `body.error?.suggestion`. -/
def apiSuggestion (b : ApiError) : Option String := b.error.bind ApiErrorBody.suggestion

/-- `body.error?.links`. -/
def apiLinks (b : ApiError) : Option (List (String × String)) := b.error.bind ApiErrorBody.links

/-- The 429 quota test of handleErrorResponse:
`code === 'RATE_2003' || code === 'QUOTA_EXCEEDED'`
(RATE_2003 is `ErrorCode.QUOTA_EXCEEDED` in constants.ts). -/
def isQuotaCode (c : Option String) : Bool :=
  c == some "RATE_2003" || c == some "QUOTA_EXCEEDED"

/-- client.ts `handleErrorResponse(status, body, headers)`: the Error
Classifier.  The source `switch` on status is rendered as the equivalent
condition chain. -/
def handleErrorResponse (status : Nat) (body : ApiError) (h : Headers) : TuteliqErr :=
  let message := jsStrOr (apiMessage body) "Unknown error"
  let code := apiCode body
  let details := apiDetails body
  let suggestion := apiSuggestion body
  let links := apiLinks body
  if status = 400 then
    { kind := .validation, message := message, code := code,
      suggestion := suggestion, links := links, details := details }
  else if status = 401 then
    { kind := .authentication, message := message, code := code,
      suggestion := suggestion, links := links }
  else if status = 403 then
    { kind := .tierAccess, message := message, code := code,
      suggestion := suggestion, links := links }
  else if status = 404 then
    { kind := .notFound, message := message, code := code,
      suggestion := suggestion, links := links }
  else if status = 429 then
    if isQuotaCode code then
      { kind := .quotaExceeded, message := message, code := code,
        suggestion := suggestion, links := links }
    else
      { kind := .rateLimit, message := message, code := code,
        suggestion := suggestion, links := links,
        retryAfter := h.retryAfter.bind jsParseInt }
  else if 500 ≤ status then
    { kind := .server, message := message, code := code,
      suggestion := suggestion, links := links, status := some status }
  else
    { kind := .generic, message := message, code := code,
      suggestion := suggestion, links := links, status := some status,
      details := details }

/-- The spec error-classification table (spec section 4.2), stated in the
spec's own terms; `quota` is "machine code is the designated
quota-exceeded code". -/
def specClassifierKind (status : Nat) (quota : Bool) : ErrorKind :=
  if status = 400 then .validation
  else if status = 401 then .authentication
  else if status = 403 then .tierAccess
  else if status = 404 then .notFound
  else if status = 429 then (if quota then .quotaExceeded else .rateLimit)
  else if 500 ≤ status then .server
  else .generic

/-- Monthly usage triple (each `none` models a NaN parse). -/
structure Usage where
  limit : Option Int := none
  used : Option Int := none
  remaining : Option Int := none
  deriving DecidableEq, Repr

/-- Per-minute rate-limit triple. -/
structure RateLimitInfo where
  limit : Option Int := none
  remaining : Option Int := none
  reset : Option Int := none
  deriving DecidableEq, Repr

/-- The client's mutable fields that one attempt can write
(`_usage`, `_rateLimit`, `_lastRequestId`, `_lastLatencyMs`,
`_usageWarning`), plus two instrumentation counters: how many times the
header-metadata extraction block ran and how many times `_lastLatencyMs`
was assigned. -/
structure ClientState where
  usage : Option Usage := none
  rateLimit : Option RateLimitInfo := none
  lastRequestId : Option String := none
  lastLatencyMs : Option Int := none
  usageWarning : Option String := none
  metadataExtractions : Nat := 0
  latencyWrites : Nat := 0
  deriving DecidableEq, Repr

/-- How the underlying `fetch` settles, if it is allowed to settle:
an HTTP response (with the already-determined JSON parse results of its
body: `errBody` for the error-payload parse with `none` = malformed or
absent JSON, `okBody` for the success-payload parse), an abort rejection,
a `TypeError` rejection, or some other rejection. -/
inductive FetchOutcome (α : Type) where
  | response (status : Nat) (headers : Headers) (errBody : Option ApiError) (okBody : Option α)
  | abortError
  | typeError (msg : String)
  | otherError (msg : String)
  deriving DecidableEq, Repr

/-- One network operation: the instant (ms after start) at which `fetch`
would settle, and how. -/
structure NetBehavior (α : Type) where
  completesAt : Nat
  outcome : FetchOutcome α
  deriving DecidableEq, Repr

/-- The timeout timer (`setTimeout` + `AbortController`): if `fetch` does
not settle strictly before the timer fires at `timeoutMs`, the in-flight
operation is aborted and `fetch` rejects with an `AbortError`. -/
def effectiveOutcome (timeoutMs : Nat) (net : NetBehavior α) : FetchOutcome α :=
  if net.completesAt < timeoutMs then net.outcome else .abortError

/-- `response.ok`: status in the 2xx range. -/
def isOk (status : Nat) : Bool := decide (200 ≤ status ∧ status ≤ 299)

/-- The substring test used by the network-error detection chain. -/
def listHasPrefix : List Char → List Char → Bool
  | _, [] => true
  | [], _ :: _ => false
  | c :: cs, d :: ds => c = d && listHasPrefix cs ds

/-- Whether `p` occurs as a contiguous run inside `l`. -/
def listHasInfix : List Char → List Char → Bool
  | [], p => p.isEmpty
  | c :: cs, p => listHasPrefix (c :: cs) p || listHasInfix cs p

/-- `s.includes(pat)`. -/
def strIncludes (s pat : String) : Bool := listHasInfix s.data pat.data

/-- The runtime-spanning network-error message test of client.ts
(applied to non-abort, non-TypeError rejections). -/
def isNetworkMessage (msg : String) : Bool :=
  strIncludes msg "fetch" || strIncludes msg "network" ||
  strIncludes msg "ECONNREFUSED" || strIncludes msg "ECONNRESET" ||
  strIncludes msg "ENOTFOUND" || strIncludes msg "ERR_NETWORK" ||
  strIncludes msg "Failed to fetch" || strIncludes msg "Network request failed"

/-- The header-metadata extraction block of client.ts `request`
(latency, request id, monthly usage, rate limit, usage warning), run on
every settled HTTP response regardless of status. -/
def extractHeaderMetadata (st : ClientState) (latency : Int) (h : Headers) : ClientState :=
  let usage :=
    if truthyS h.xMonthlyLimit && truthyS h.xMonthlyUsed && truthyS h.xMonthlyRemaining then
      some { limit := h.xMonthlyLimit.bind jsParseInt,
             used := h.xMonthlyUsed.bind jsParseInt,
             remaining := h.xMonthlyRemaining.bind jsParseInt }
    else st.usage
  let rateLimit :=
    if truthyS h.xRateLimitLimit && truthyS h.xRateLimitRemaining then
      some { limit := h.xRateLimitLimit.bind jsParseInt,
             remaining := h.xRateLimitRemaining.bind jsParseInt,
             reset := if truthyS h.xRateLimitReset then h.xRateLimitReset.bind jsParseInt else none }
    else st.rateLimit
  { st with
    lastLatencyMs := some latency,
    lastRequestId := h.xRequestId,
    usage := usage,
    rateLimit := rateLimit,
    usageWarning := h.xUsageWarning,
    metadataExtractions := st.metadataExtractions + 1,
    latencyWrites := st.latencyWrites + 1 }

/-- client.ts `request`: one attempt of the Request Executor.  On a
settled response: extract header metadata, then either decode the success
body, or parse the error body (malformed or absent JSON treated as `{}`)
and throw the classified error; the catch block re-records latency and
rethrows classified errors unchanged.  On a rejection: record latency and
classify as Timeout (abort), Network (TypeError or network-looking
message) or generic. -/
def request (timeoutMs : Nat) (net : NetBehavior α) (st : ClientState) :
    Except TuteliqErr α × ClientState :=
  match effectiveOutcome timeoutMs net with
  | .response status h errBody okBody =>
    let latency : Int := net.completesAt
    let st1 := extractHeaderMetadata st latency h
    if isOk status then
      match okBody with
      | some v => (.ok v, st1)
      | none =>
        -- the success-body JSON parse throws a SyntaxError; its message
        -- matches none of the network patterns, so the base error is thrown
        (.error { kind := .generic, message := "Unexpected end of JSON input" },
         { st1 with lastLatencyMs := some latency, latencyWrites := st1.latencyWrites + 1 })
    else
      let body := errBody.getD {}
      let e := handleErrorResponse status body h
      (.error e,
       { st1 with lastLatencyMs := some latency, latencyWrites := st1.latencyWrites + 1 })
  | .abortError =>
    (.error { kind := .timeout,
              message := "Request timed out after " ++ toString timeoutMs ++ "ms" },
     { st with lastLatencyMs := some (timeoutMs : Int),
               latencyWrites := st.latencyWrites + 1 })
  | .typeError msg =>
    (.error { kind := .network, message := msg },
     { st with lastLatencyMs := some (net.completesAt : Int),
               latencyWrites := st.latencyWrites + 1 })
  | .otherError msg =>
    if isNetworkMessage msg then
      (.error { kind := .network, message := msg },
       { st with lastLatencyMs := some (net.completesAt : Int),
                 latencyWrites := st.latencyWrites + 1 })
    else
      (.error { kind := .generic, message := msg },
       { st with lastLatencyMs := some (net.completesAt : Int),
                 latencyWrites := st.latencyWrites + 1 })

/-- Modelled from the spec: the retry-eligibility decision of `withRetry`
(src/utils/retry.ts is absent from the snapshot).  Per spec section 4.4,
only Network, Timeout, Server and RateLimit failures are retryable;
Validation, Authentication, TierAccess, NotFound and QuotaExceeded are
never retried. -/
def retryable : ErrorKind → Bool
  | .network => true
  | .timeout => true
  | .server => true
  | .rateLimit => true
  | _ => false

/-- Modelled from the spec: the bounded-retry loop of `withRetry`
(src/utils/retry.ts is absent from the snapshot), threaded through the
source-embedded `request`.  Per spec section 4.4: invoke the attempt; on
a retryable failure with attempts not exhausted, wait per the Backoff
Scheduler and retry; otherwise propagate the last error unchanged.
Returns (result, state, attempts performed, backoff waits).  `fuel` is a
structural bound; it is called with `maxRetries + 1`, which the loop never
exhausts. -/
def requestWithRetryFuel (timeoutMs maxRetries : Nat) (nets : Nat → NetBehavior α) :
    Nat → Nat → ClientState → Except TuteliqErr α × ClientState × Nat × Nat
  | 0, _, st => (.error { kind := .generic, message := "out of fuel" }, st, 0, 0)
  | fuel + 1, i, st =>
    let p := request timeoutMs (nets i) st
    match p.1 with
    | .ok v => (.ok v, p.2, 1, 0)
    | .error e =>
      if retryable e.kind && decide (i < maxRetries) then
        let q := requestWithRetryFuel timeoutMs maxRetries nets fuel (i + 1) p.2
        (q.1, q.2.1, q.2.2.1 + 1, q.2.2.2 + 1)
      else (.error e, p.2, 1, 0)

/-- client.ts `requestWithRetry`: the Retry Coordinator applied to the
Request Executor with the configured policy; attempt `i` runs against
network behavior `nets i`. -/
def requestWithRetry (timeoutMs maxRetries : Nat) (nets : Nat → NetBehavior α)
    (st : ClientState) : Except TuteliqErr α × ClientState × Nat × Nat :=
  requestWithRetryFuel timeoutMs maxRetries nets (maxRetries + 1) 0 st

/-- Kind of a failed result, `none` on success. -/
def errKind : Except TuteliqErr α → Option ErrorKind
  | .error e => some e.kind
  | .ok _ => none

/-- Status of a response outcome, `none` for rejections. -/
def respStatus : FetchOutcome α → Option Nat
  | .response s _ _ _ => some s
  | _ => none

/-- client.ts `MAX_CONTENT_LENGTH`. -/
def MAX_CONTENT_LENGTH : Nat := 50000

/-- client.ts `MAX_MESSAGES_COUNT`. -/
def MAX_MESSAGES_COUNT : Nat := 100

/-- client.ts `validateContent`: empty (falsy) content or content beyond
the maximum length raises a ValidationError. -/
def validateContent (content : String) : Except TuteliqErr Unit :=
  if content = "" then
    .error { kind := .validation, message := "Content is required and must be a string" }
  else if MAX_CONTENT_LENGTH < content.length then
    .error { kind := .validation,
             message := "Content exceeds maximum length of " ++
               toString MAX_CONTENT_LENGTH ++ " characters" }
  else .ok ()

/-- client.ts `validateMessages`: an empty array or more than the maximum
count raises a ValidationError (messages abstracted to their contents). -/
def validateMessages (msgs : List String) : Except TuteliqErr Unit :=
  if msgs = [] then
    .error { kind := .validation, message := "Messages array is required and cannot be empty" }
  else if MAX_MESSAGES_COUNT < msgs.length then
    .error { kind := .validation,
             message := "Messages array exceeds maximum count of " ++
               toString MAX_MESSAGES_COUNT }
  else .ok ()

/-- client.ts `detectBullying`: validate the content first; only on
success is the Retry Coordinator (and hence any network attempt) invoked.
Returns (result, state, attempts, waits). -/
def detectBullying (timeoutMs maxRetries : Nat) (nets : Nat → NetBehavior α)
    (st : ClientState) (content : String) :
    Except TuteliqErr α × ClientState × Nat × Nat :=
  match validateContent content with
  | .error e => (.error e, st, 0, 0)
  | .ok _ => requestWithRetry timeoutMs maxRetries nets st

/-- client.ts `detectGrooming`: validate the messages array first; only on
success is the Retry Coordinator invoked. -/
def detectGrooming (timeoutMs maxRetries : Nat) (nets : Nat → NetBehavior α)
    (st : ClientState) (msgs : List String) :
    Except TuteliqErr α × ClientState × Nat × Nat :=
  match validateMessages msgs with
  | .error e => (.error e, st, 0, 0)
  | .ok _ => requestWithRetry timeoutMs maxRetries nets st

/-- Constructor options (`TuteliqOptions`). -/
structure TuteliqOptions where
  timeout : Option Int := none
  retries : Option Int := none
  retryDelay : Option Int := none
  deriving DecidableEq, Repr

/-- The configuration fields stored by a successfully constructed client. -/
structure ClientConfig where
  apiKey : String
  timeout : Int
  retries : Int
  retryDelay : Int
  deriving DecidableEq, Repr

/-- The `Tuteliq` constructor: key presence and length checks, defaulting
of timeout / retries / retryDelay, then range validation. -/
def mkTuteliq (apiKey : String) (o : TuteliqOptions) : Except String ClientConfig :=
  if apiKey = "" then
    .error "API key is required and must be a string"
  else if apiKey.length < 10 then
    .error "API key appears to be invalid (too short)"
  else
    let timeout := o.timeout.getD 30000
    let retries := o.retries.getD 3
    let retryDelay := o.retryDelay.getD 1000
    if timeout < 1000 ∨ 120000 < timeout then
      .error "Timeout must be between 1000ms and 120000ms"
    else if retries < 0 ∨ 10 < retries then
      .error "Retries must be between 0 and 10"
    else
      .ok { apiKey := apiKey, timeout := timeout, retries := retries, retryDelay := retryDelay }

/-- The risk-level thresholds of client.ts `analyze`. -/
def riskLevelOf (m : ℚ) : String :=
  if 9/10 ≤ m then "critical"
  else if 7/10 ≤ m then "high"
  else if 1/2 ≤ m then "medium"
  else if 3/10 ≤ m then "low"
  else "safe"

/-- The result-combination logic of client.ts `analyze`: which detections
run is decided by `incl` (`input.include || ['bullying', 'unsafe']`, where
only an absent list gives the default); `maxRiskScore` starts at 0 and
takes the maximum with each run sub-result's risk score.  Returns
(risk score, risk level). -/
def analyzeCombine (inclOpt : Option (List String)) (bScore uScore : ℚ) : ℚ × String :=
  let incl := inclOpt.getD ["bullying", "unsafe"]
  let m0 : ℚ := 0
  let m1 := if incl.contains "bullying" then max m0 bScore else m0
  let m2 := if incl.contains "unsafe" then max m1 uScore else m1
  (m2, riskLevelOf m2)

/-- Modelled from the spec: the Streaming Session lifecycle states of
spec section 4.5 (src/voice-stream.ts is absent from the snapshot).
The session is constructed directly into Connecting. -/
inductive StreamState where
  | connecting
  | active
  | closing
  | closed
  | errored
  deriving DecidableEq, Repr

/-- Modelled from the spec: a streaming session's observable state —
lifecycle state, outbound audio buffer (queued, not transmitted) and the
chunks delivered to the connection so far. -/
structure StreamSession (A : Type) where
  state : StreamState
  buffer : List A
  sent : List A
  deriving DecidableEq, Repr

/-- A freshly constructed session: Connecting, nothing buffered or sent. -/
def initSession : StreamSession A := { state := .connecting, buffer := [], sent := [] }

/-- Inputs a session reacts to: the caller submitting an audio chunk and
the server's Ready event. -/
inductive StreamInput (A : Type) where
  | sendAudio (chunk : A)
  | readyEvent
  deriving DecidableEq, Repr

/-- Modelled from the spec (section 4.5): before the Ready event,
submitted audio is queued locally, not transmitted; on Ready the session
transitions Connecting to Active and the queued audio is delivered to the
connection; while Active, submitted audio is flushed as it arrives. -/
def stepSession (s : StreamSession A) (e : StreamInput A) : StreamSession A :=
  match e with
  | .sendAudio c =>
    match s.state with
    | .connecting => { s with buffer := s.buffer ++ [c] }
    | .active => { s with sent := s.sent ++ s.buffer ++ [c], buffer := [] }
    | _ => s
  | .readyEvent =>
    match s.state with
    | .connecting => { state := .active, buffer := [], sent := s.sent ++ s.buffer }
    | _ => s

/-- Submit a list of audio chunks in order. -/
def sendAll (cs : List A) (s : StreamSession A) : StreamSession A :=
  cs.foldl (fun t c => stepSession t (.sendAudio c)) s

/-! ## Helper lemmas -/

theorem handleErrorResponse_kind (status : Nat) (body : ApiError) (h : Headers) :
    (handleErrorResponse status body h).kind =
      specClassifierKind status (isQuotaCode (apiCode body)) := by
  simp only [handleErrorResponse, specClassifierKind]
  split_ifs <;> rfl

theorem respStatus_eq_some {o : FetchOutcome α} {s : Nat} (hs : respStatus o = some s) :
    ∃ h eb ob, o = FetchOutcome.response s h eb ob := by
  cases o with
  | response s2 h eb ob =>
    simp only [respStatus, Option.some.injEq] at hs
    exact ⟨h, eb, ob, by rw [hs]⟩
  | abortError => simp [respStatus] at hs
  | typeError m => simp [respStatus] at hs
  | otherError m => simp [respStatus] at hs

theorem request_500_server (tm : Nat) (net : NetBehavior α) (st : ClientState)
    (hs : respStatus (effectiveOutcome tm net) = some 500) :
    ∃ e, (request tm net st).1 = Except.error e ∧ e.kind = ErrorKind.server := by
  obtain ⟨h, eb, ob, heo⟩ := respStatus_eq_some hs
  refine ⟨handleErrorResponse 500 (eb.getD {}) h, ?_, ?_⟩
  · simp only [request, heo]
    norm_num [isOk]
  · rw [handleErrorResponse_kind]
    simp [specClassifierKind]

theorem retryFuel_all_500 (tm N : Nat) (nets : Nat → NetBehavior α)
    (hs : ∀ j, respStatus (effectiveOutcome tm (nets j)) = some 500) :
    ∀ fuel i st, i + fuel = N + 1 → i ≤ N →
      errKind (requestWithRetryFuel tm N nets fuel i st).1 = some ErrorKind.server ∧
      (requestWithRetryFuel tm N nets fuel i st).2.2.1 = fuel ∧
      (requestWithRetryFuel tm N nets fuel i st).2.2.2 = fuel - 1 := by
  intro fuel
  induction fuel with
  | zero => intro i st h1 h2; omega
  | succ fuel ih =>
    intro i st h1 h2
    obtain ⟨e, he, hk⟩ := request_500_server tm (nets i) st (hs i)
    simp only [requestWithRetryFuel, he, hk, retryable, Bool.true_and]
    by_cases hi : i < N
    · have hrec := ih (i + 1) (request tm (nets i) st).2 (by omega) (by omega)
      rw [if_pos (by simpa using hi)]
      refine ⟨hrec.1, ?_, ?_⟩
      · show (requestWithRetryFuel tm N nets fuel (i + 1) (request tm (nets i) st).2).2.2.1 + 1
            = fuel + 1
        rw [hrec.2.1]
      · show (requestWithRetryFuel tm N nets fuel (i + 1) (request tm (nets i) st).2).2.2.2 + 1
            = fuel + 1 - 1
        rw [hrec.2.2]
        omega
    · rw [if_neg (by simpa using hi)]
      have hf : fuel = 0 := by omega
      refine ⟨by simp [errKind, hk], ?_, ?_⟩
      · show 1 = fuel + 1
        omega
      · show 0 = fuel + 1 - 1
        omega

theorem handleErrorResponse_message (status : Nat) (body : ApiError) (h : Headers) :
    (handleErrorResponse status body h).message = jsStrOr (apiMessage body) "Unknown error" := by
  simp only [handleErrorResponse]
  split_ifs <;> rfl

theorem request_response_error (tm : Nat) (net : NetBehavior α) (st : ClientState)
    (status : Nat) (h : Headers) (eb : Option ApiError) (ob : Option α)
    (heo : effectiveOutcome tm net = FetchOutcome.response status h eb ob)
    (hok : isOk status = false) :
    (request tm net st).1 = Except.error (handleErrorResponse status (eb.getD {}) h) := by
  simp [request, heo, hok]

theorem sendAll_connecting (cs : List A) :
    ∀ s : StreamSession A, s.state = StreamState.connecting →
      sendAll cs s =
        { state := .connecting, buffer := s.buffer ++ cs, sent := s.sent } := by
  induction cs with
  | nil => intro s hs; obtain ⟨st, buf, snt⟩ := s; subst hs; simp [sendAll]
  | cons c cs ih =>
    intro s hs
    obtain ⟨st, buf, snt⟩ := s
    simp only at hs
    subst hs
    show sendAll cs (stepSession ⟨.connecting, buf, snt⟩ (.sendAudio c)) = _
    rw [show stepSession (⟨.connecting, buf, snt⟩ : StreamSession A) (.sendAudio c)
          = ⟨.connecting, buf ++ [c], snt⟩ from rfl]
    rw [ih _ rfl]
    simp

/-! ## Claims -/

/-- C1: the Error Classifier maps every failed response exactly per the
spec table of section 4.2 — 400 Validation (carrying the details payload),
401 Authentication, 403 TierAccess, 404 NotFound, 429 QuotaExceeded when
the body's machine code is a designated quota-exceeded code (RATE_2003,
i.e. `ErrorCode.QUOTA_EXCEEDED`, or its legacy spelling) and otherwise
RateLimit carrying the retry-after seconds parsed from the Retry-After
header, any status at least 500 Server carrying the numeric status, any
other status Generic carrying the numeric status; message, optional code,
optional suggestion and optional links are extracted uniformly from the
structured payload for every kind.  A 429 response with header
`retry-after: 5` yields `retryAfter = 5`. -/
theorem error_classifier_matches_spec_table :
    (∀ (status : Nat) (body : ApiError) (h : Headers),
      (handleErrorResponse status body h).kind
        = specClassifierKind status (isQuotaCode (apiCode body)) ∧
      (handleErrorResponse status body h).message = jsStrOr (apiMessage body) "Unknown error" ∧
      (handleErrorResponse status body h).code = apiCode body ∧
      (handleErrorResponse status body h).suggestion = apiSuggestion body ∧
      (handleErrorResponse status body h).links = apiLinks body ∧
      ((handleErrorResponse status body h).kind = ErrorKind.validation →
        (handleErrorResponse status body h).details = apiDetails body) ∧
      ((handleErrorResponse status body h).kind = ErrorKind.rateLimit →
        (handleErrorResponse status body h).retryAfter = h.retryAfter.bind jsParseInt) ∧
      ((handleErrorResponse status body h).kind = ErrorKind.server ∨
          (handleErrorResponse status body h).kind = ErrorKind.generic →
        (handleErrorResponse status body h).status = some status)) ∧
    (handleErrorResponse 429 {} { retryAfter := some "5" }).retryAfter = some 5 := by
  refine ⟨fun status body h => ?_, rfl⟩
  by_cases e400 : status = 400
  · simp [handleErrorResponse, specClassifierKind, e400]
  by_cases e401 : status = 401
  · simp [handleErrorResponse, specClassifierKind, e400, e401]
  by_cases e403 : status = 403
  · simp [handleErrorResponse, specClassifierKind, e400, e401, e403]
  by_cases e404 : status = 404
  · simp [handleErrorResponse, specClassifierKind, e400, e401, e403, e404]
  by_cases e429 : status = 429
  · by_cases hq : isQuotaCode (apiCode body)
    · simp [handleErrorResponse, specClassifierKind, e400, e401, e403, e404, e429, hq]
    · simp [handleErrorResponse, specClassifierKind, e400, e401, e403, e404, e429, hq]
  by_cases e500 : 500 ≤ status
  · simp [handleErrorResponse, specClassifierKind, e400, e401, e403, e404, e429, e500]
  · simp [handleErrorResponse, specClassifierKind, e400, e401, e403, e404, e429, e500]

/-- C1 witness: the conditional conclusions instantiated at concrete
classifier inputs — a 400 carries the details payload, a plain 429
carries the parsed retry-after, and a 502 carries its numeric status. -/
theorem error_classifier_matches_spec_table_witness :
    (handleErrorResponse 400 { error := some { details := some "d" } } {}).details = some "d" ∧
    (handleErrorResponse 429 {} { retryAfter := some "7" }).retryAfter =
      (some "7").bind jsParseInt ∧
    (handleErrorResponse 502 {} {}).status = some 502 :=
  ⟨(error_classifier_matches_spec_table.1 400 { error := some { details := some "d" } }
      {}).2.2.2.2.2.1 rfl,
   (error_classifier_matches_spec_table.1 429 {} { retryAfter := some "7" }).2.2.2.2.2.2.1 rfl,
   (error_classifier_matches_spec_table.1 502 {} {}).2.2.2.2.2.2.2 (Or.inl rfl)⟩

/-- C2: with `maxRetries = N` and a server that answers every attempt
with an HTTP 500 response, the Retry Coordinator performs exactly N+1
attempts (with N backoff waits between them) and the error finally
propagated to the caller has kind Server. -/
theorem retry_on_500_makes_n_plus_one_attempts (tm N : Nat)
    (nets : Nat → NetBehavior α) (st : ClientState)
    (hs : ∀ j, respStatus (effectiveOutcome tm (nets j)) = some 500) :
    errKind (requestWithRetry tm N nets st).1 = some ErrorKind.server ∧
    (requestWithRetry tm N nets st).2.2.1 = N + 1 ∧
    (requestWithRetry tm N nets st).2.2.2 = N := by
  have h := retryFuel_all_500 tm N nets hs (N + 1) 0 st (by omega) (by omega)
  exact ⟨h.1, h.2.1, by rw [requestWithRetry, h.2.2]; omega⟩

/-- C2 witness: with `maxRetries = 2` and a server always answering 500,
exactly 3 attempts are made, 2 waits occur, and the final error kind is
Server. -/
theorem retry_on_500_makes_n_plus_one_attempts_witness :
    errKind (requestWithRetry 30000 2
      (fun _ => (⟨5, FetchOutcome.response 500 {} none none⟩ : NetBehavior Unit)) {}).1
        = some ErrorKind.server ∧
    (requestWithRetry 30000 2
      (fun _ => (⟨5, FetchOutcome.response 500 {} none none⟩ : NetBehavior Unit)) {}).2.2.1
        = 2 + 1 ∧
    (requestWithRetry 30000 2
      (fun _ => (⟨5, FetchOutcome.response 500 {} none none⟩ : NetBehavior Unit)) {}).2.2.2
        = 2 :=
  retry_on_500_makes_n_plus_one_attempts 30000 2 _ {} (fun _ => rfl)

/-- C3: if the first attempt fails with status 400, 401, 403, 404, or 429
carrying a designated quota-exceeded machine code, the Retry Coordinator
performs exactly one attempt, no backoff wait occurs, and the classified
error is propagated unchanged, for every configured `maxRetries`;
moreover the kinds Validation, Authentication, TierAccess, NotFound and
QuotaExceeded are never retryable. -/
theorem nonretryable_error_single_attempt (tm N : Nat) (nets : Nat → NetBehavior α)
    (st : ClientState) (status : Nat) (h : Headers) (eb : Option ApiError) (ob : Option α)
    (heo : effectiveOutcome tm (nets 0) = FetchOutcome.response status h eb ob)
    (hstat : status = 400 ∨ status = 401 ∨ status = 403 ∨ status = 404 ∨
      (status = 429 ∧ isQuotaCode (apiCode (eb.getD {})) = true)) :
    ((requestWithRetry tm N nets st).1
        = Except.error (handleErrorResponse status (eb.getD {}) h) ∧
      (requestWithRetry tm N nets st).2.2.1 = 1 ∧
      (requestWithRetry tm N nets st).2.2.2 = 0 ∧
      retryable (handleErrorResponse status (eb.getD {}) h).kind = false) ∧
    (retryable ErrorKind.validation = false ∧ retryable ErrorKind.authentication = false ∧
      retryable ErrorKind.tierAccess = false ∧ retryable ErrorKind.notFound = false ∧
      retryable ErrorKind.quotaExceeded = false) := by
  have hok : isOk status = false := by
    rcases hstat with h1 | h1 | h1 | h1 | ⟨h1, hq⟩ <;> subst h1 <;> rfl
  have h1 := request_response_error tm (nets 0) st status h eb ob heo hok
  have hkind : retryable (handleErrorResponse status (eb.getD {}) h).kind = false := by
    rw [handleErrorResponse_kind]
    rcases hstat with h2 | h2 | h2 | h2 | ⟨h2, hq⟩ <;> subst h2 <;>
      simp_all [specClassifierKind, retryable]
  refine ⟨⟨?_, ?_, ?_, hkind⟩, rfl, rfl, rfl, rfl, rfl⟩ <;>
    simp [requestWithRetry, requestWithRetryFuel, h1, hkind]

/-- C3 witness: a first attempt answered 401 with `maxRetries = 3` makes
exactly one attempt with no wait and propagates the Authentication
error. -/
theorem nonretryable_error_single_attempt_witness :
    ((requestWithRetry 30000 3
        (fun _ => (⟨5, FetchOutcome.response 401 {} none none⟩ : NetBehavior Unit)) {}).1
      = Except.error (handleErrorResponse 401 {} {}) ∧
     (requestWithRetry 30000 3
        (fun _ => (⟨5, FetchOutcome.response 401 {} none none⟩ : NetBehavior Unit)) {}).2.2.1
      = 1 ∧
     (requestWithRetry 30000 3
        (fun _ => (⟨5, FetchOutcome.response 401 {} none none⟩ : NetBehavior Unit)) {}).2.2.2
      = 0 ∧
     retryable (handleErrorResponse 401 {} {}).kind = false) ∧
    (retryable ErrorKind.validation = false ∧ retryable ErrorKind.authentication = false ∧
      retryable ErrorKind.tierAccess = false ∧ retryable ErrorKind.notFound = false ∧
      retryable ErrorKind.quotaExceeded = false) :=
  nonretryable_error_single_attempt 30000 3 _ {} 401 {} none none rfl
    (Or.inr (Or.inl rfl))

/-- C4: an attempt whose network operation does not settle before the
configured timeout elapses is aborted by the timeout timer and surfaces
a Timeout-kind failure — never Network, Server or any other kind — and
none of the aborted response's effects happen: the entire resulting state
is the prior state with only the latency recorded. -/
theorem timeout_attempt_surfaces_timeout_kind (tm : Nat) (net : NetBehavior α)
    (st : ClientState) (hlate : tm ≤ net.completesAt) :
    request tm net st =
      (Except.error { kind := ErrorKind.timeout,
                      message := "Request timed out after " ++ toString tm ++ "ms" },
       { st with lastLatencyMs := some (tm : Int),
                 latencyWrites := st.latencyWrites + 1 }) := by
  have heo : effectiveOutcome tm net = FetchOutcome.abortError := by
    rw [effectiveOutcome, if_neg (by omega)]
  simp [request, heo]

/-- C4 witness: a 200 response that would settle at 40000ms under a
30000ms timeout surfaces the Timeout error and leaves everything but the
latency untouched. -/
theorem timeout_attempt_surfaces_timeout_kind_witness :
    request 30000 (⟨40000, FetchOutcome.response 200 {} none (some ())⟩ : NetBehavior Unit) {}
      = (Except.error { kind := ErrorKind.timeout,
                        message := "Request timed out after 30000ms" },
         { lastLatencyMs := some 30000, latencyWrites := 1 }) :=
  timeout_attempt_surfaces_timeout_kind 30000
    (⟨40000, FetchOutcome.response 200 {} none (some ())⟩ : NetBehavior Unit) {}
    (by decide)

/-- The C5 claim as stated: every attempt — succeeding, failing with an
HTTP error status, or failing at the network level — updates the
header-derived ResponseMetadata snapshot exactly once. -/
def claimC5 : Prop :=
  ∀ (tm : Nat) (net : NetBehavior Unit) (st : ClientState),
    (request tm net st).2.metadataExtractions = st.metadataExtractions + 1

/-- C5 counterexample: an attempt failing at the network level (a
`TypeError` rejection at 5ms under a 30000ms timeout) runs the
header-extraction block zero times — there is no response to extract
from — so the claim as stated is false. -/
theorem metadata_claim_false_on_network_failure : ¬ claimC5 := by
  intro hcl
  exact absurd (hcl 30000 ⟨5, FetchOutcome.typeError "fetch failed"⟩ {}) (by decide)

/-- C5 amended: on every attempt that receives an HTTP response — any
status, 2xx or not — the header-metadata extraction runs exactly once and
the header-derived fields (request id, usage warning, and conditionally
the usage and rate-limit triples) are written from that response's
headers; on an attempt that fails without a response (timeout or
network-level failure) the header-derived fields are untouched and only
the latency is recorded. -/
theorem metadata_extraction_once_per_response (tm : Nat) (net : NetBehavior α)
    (st : ClientState) :
    (∀ status h eb ob, effectiveOutcome tm net = FetchOutcome.response status h eb ob →
      (request tm net st).2.metadataExtractions = st.metadataExtractions + 1 ∧
      (request tm net st).2.lastRequestId = h.xRequestId ∧
      (request tm net st).2.usageWarning = h.xUsageWarning) ∧
    (respStatus (effectiveOutcome tm net) = none →
      (request tm net st).2.metadataExtractions = st.metadataExtractions ∧
      (request tm net st).2.lastRequestId = st.lastRequestId ∧
      (request tm net st).2.usage = st.usage ∧
      (request tm net st).2.rateLimit = st.rateLimit ∧
      (request tm net st).2.usageWarning = st.usageWarning ∧
      (request tm net st).2.latencyWrites = st.latencyWrites + 1) := by
  constructor
  · intro status h eb ob heo
    simp only [request, heo]
    split <;> (try split) <;> simp [extractHeaderMetadata]
  · intro hnone
    cases ho : effectiveOutcome tm net with
    | response s h2 eb ob => rw [ho] at hnone; simp [respStatus] at hnone
    | abortError => simp [request, ho]
    | typeError m => simp [request, ho]
    | otherError m =>
      simp only [request, ho]
      split <;> simp

/-- C5 amended witness: a 503 response updates the extraction counter
exactly once; a network-level failure leaves it untouched and records
only the latency. -/
theorem metadata_extraction_once_per_response_witness :
    (request 30000 (⟨5, FetchOutcome.response 503 {} none none⟩ : NetBehavior Unit)
        {}).2.metadataExtractions = 0 + 1 ∧
    (request 30000 (⟨5, FetchOutcome.typeError "boom"⟩ : NetBehavior Unit)
        {}).2.metadataExtractions = 0 ∧
    (request 30000 (⟨5, FetchOutcome.typeError "boom"⟩ : NetBehavior Unit)
        {}).2.latencyWrites = 0 + 1 :=
  ⟨((metadata_extraction_once_per_response 30000
      (⟨5, FetchOutcome.response 503 {} none none⟩ : NetBehavior Unit) {}).1
        503 {} none none rfl).1,
   ((metadata_extraction_once_per_response 30000
      (⟨5, FetchOutcome.typeError "boom"⟩ : NetBehavior Unit) {}).2 rfl).1,
   ((metadata_extraction_once_per_response 30000
      (⟨5, FetchOutcome.typeError "boom"⟩ : NetBehavior Unit) {}).2 rfl).2.2.2.2.2⟩

/-- C6: a non-2xx response whose body is absent or malformed JSON is
classified exactly as if the error payload were the empty object — the
executor still throws the classified error of the kind determined by the
status alone, with the fallback message, and never a distinct failure of
its own. -/
theorem malformed_error_body_treated_as_empty (tm : Nat) (net : NetBehavior α)
    (st : ClientState) (status : Nat) (h : Headers) (ob : Option α)
    (heo : effectiveOutcome tm net = FetchOutcome.response status h none ob)
    (hok : isOk status = false) :
    (request tm net st).1 = Except.error (handleErrorResponse status {} h) ∧
    (handleErrorResponse status {} h).kind = specClassifierKind status false ∧
    (handleErrorResponse status {} h).message = "Unknown error" := by
  refine ⟨?_, ?_, ?_⟩
  · simpa using request_response_error tm net st status h none ob heo hok
  · rw [handleErrorResponse_kind]
    rfl
  · rw [handleErrorResponse_message]
    rfl

/-- C6 witness: a 503 response with unparseable body yields the Server
error classified from the empty payload with the fallback message. -/
theorem malformed_error_body_treated_as_empty_witness :
    (request 30000 (⟨5, FetchOutcome.response 503 {} none none⟩ : NetBehavior Unit) {}).1
      = Except.error (handleErrorResponse 503 {} {}) ∧
    (handleErrorResponse 503 {} {}).kind = specClassifierKind 503 false ∧
    (handleErrorResponse 503 {} {}).message = "Unknown error" :=
  malformed_error_body_treated_as_empty 30000
    (⟨5, FetchOutcome.response 503 {} none none⟩ : NetBehavior Unit) {} 503 {} none rfl rfl

/-- C7: audio chunks submitted right after construction, before the Ready
event arrives, are not dropped: nothing is transmitted while Connecting —
the chunks are queued locally in order — and on the Ready event the
session transitions to Active and the queued chunks are delivered to the
connection in order. -/
theorem audio_queued_before_ready_then_delivered (A : Type) (cs : List A) :
    (sendAll cs (initSession (A := A))).sent = [] ∧
    (sendAll cs (initSession (A := A))).buffer = cs ∧
    (sendAll cs (initSession (A := A))).state = StreamState.connecting ∧
    (stepSession (sendAll cs (initSession (A := A))) StreamInput.readyEvent).state
      = StreamState.active ∧
    (stepSession (sendAll cs (initSession (A := A))) StreamInput.readyEvent).sent = cs ∧
    (stepSession (sendAll cs (initSession (A := A))) StreamInput.readyEvent).buffer = [] := by
  have h := sendAll_connecting cs (initSession (A := A)) rfl
  rw [h]
  simp [initSession, stepSession]

/-- C8: an input failing client-side validation — empty content, content
beyond the maximum length, an empty messages array, or one beyond the
maximum count — raises a Validation-kind error before the Request
Executor is invoked: zero attempts, zero waits, state untouched. -/
theorem client_validation_precedes_executor (tm mr : Nat) (nets : Nat → NetBehavior α)
    (st : ClientState) (content : String) (msgs : List String) :
    ((content = "" ∨ MAX_CONTENT_LENGTH < content.length) →
      errKind (detectBullying tm mr nets st content).1 = some ErrorKind.validation ∧
      (detectBullying tm mr nets st content).2 = (st, 0, 0)) ∧
    ((msgs = [] ∨ MAX_MESSAGES_COUNT < msgs.length) →
      errKind (detectGrooming tm mr nets st msgs).1 = some ErrorKind.validation ∧
      (detectGrooming tm mr nets st msgs).2 = (st, 0, 0)) := by
  constructor
  · rintro (hc | hc)
    · subst hc
      simp [detectBullying, validateContent, errKind]
    · by_cases he : content = ""
      · subst he
        simp [detectBullying, validateContent, errKind]
      · simp [detectBullying, validateContent, he, hc, errKind]
  · rintro (hm | hm)
    · subst hm
      simp [detectGrooming, validateMessages, errKind]
    · by_cases he : msgs = []
      · subst he
        simp [MAX_MESSAGES_COUNT] at hm
      · simp [detectGrooming, validateMessages, he, hm, errKind]

/-- C8 witness: empty content and an empty messages array are rejected
client-side with kind Validation, zero attempts and an unchanged state. -/
theorem client_validation_precedes_executor_witness :
    (errKind (detectBullying 30000 3
        (fun _ => (⟨5, FetchOutcome.response 200 {} none (some ())⟩ : NetBehavior Unit)) {}
        "").1 = some ErrorKind.validation ∧
     (detectBullying 30000 3
        (fun _ => (⟨5, FetchOutcome.response 200 {} none (some ())⟩ : NetBehavior Unit)) {}
        "").2 = ({}, 0, 0)) ∧
    (errKind (detectGrooming 30000 3
        (fun _ => (⟨5, FetchOutcome.response 200 {} none (some ())⟩ : NetBehavior Unit)) {}
        []).1 = some ErrorKind.validation ∧
     (detectGrooming 30000 3
        (fun _ => (⟨5, FetchOutcome.response 200 {} none (some ())⟩ : NetBehavior Unit)) {}
        []).2 = ({}, 0, 0)) :=
  ⟨(client_validation_precedes_executor 30000 3 _ {} "" []).1 (Or.inl rfl),
   (client_validation_precedes_executor 30000 3 _ {} "" []).2 (Or.inl rfl)⟩

theorem riskLevelOf_bounds (m : ℚ) :
    (9/10 ≤ m → riskLevelOf m = "critical") ∧
    (7/10 ≤ m ∧ m < 9/10 → riskLevelOf m = "high") ∧
    (1/2 ≤ m ∧ m < 7/10 → riskLevelOf m = "medium") ∧
    (3/10 ≤ m ∧ m < 1/2 → riskLevelOf m = "low") ∧
    (m < 3/10 → riskLevelOf m = "safe") := by
  refine ⟨fun h1 => ?_, fun h2 => ?_, fun h3 => ?_, fun h4 => ?_, fun h5 => ?_⟩
  · rw [riskLevelOf, if_pos h1]
  · rw [riskLevelOf, if_neg (by linarith [h2.2]), if_pos h2.1]
  · rw [riskLevelOf, if_neg (by linarith [h3.2]), if_neg (by linarith [h3.2]), if_pos h3.1]
  · rw [riskLevelOf, if_neg (by linarith [h4.2]), if_neg (by linarith [h4.2]),
        if_neg (by linarith [h4.2]), if_pos h4.1]
  · rw [riskLevelOf, if_neg (by linarith), if_neg (by linarith), if_neg (by linarith),
        if_neg (by linarith)]

/-- C9: when the sub-result risk scores are nonnegative (they are 0-1
scores per the API types), the combined `analyze` risk score equals the
maximum of the risk scores of the sub-results that were run, and the risk
level is critical at 0.9 and above, high at 0.7, medium at 0.5, low at
0.3, and safe below that. -/
theorem analyze_risk_score_is_max_of_subresults (inclOpt : Option (List String))
    (bs us : ℚ) (hb : 0 ≤ bs) (hu : 0 ≤ us) :
    (((inclOpt.getD ["bullying", "unsafe"]).contains "bullying" = true ∧
      (inclOpt.getD ["bullying", "unsafe"]).contains "unsafe" = true →
        (analyzeCombine inclOpt bs us).1 = max bs us) ∧
     ((inclOpt.getD ["bullying", "unsafe"]).contains "bullying" = true ∧
      (inclOpt.getD ["bullying", "unsafe"]).contains "unsafe" = false →
        (analyzeCombine inclOpt bs us).1 = bs) ∧
     ((inclOpt.getD ["bullying", "unsafe"]).contains "bullying" = false ∧
      (inclOpt.getD ["bullying", "unsafe"]).contains "unsafe" = true →
        (analyzeCombine inclOpt bs us).1 = us)) ∧
    ((9/10 ≤ (analyzeCombine inclOpt bs us).1 →
        (analyzeCombine inclOpt bs us).2 = "critical") ∧
     (7/10 ≤ (analyzeCombine inclOpt bs us).1 ∧ (analyzeCombine inclOpt bs us).1 < 9/10 →
        (analyzeCombine inclOpt bs us).2 = "high") ∧
     (1/2 ≤ (analyzeCombine inclOpt bs us).1 ∧ (analyzeCombine inclOpt bs us).1 < 7/10 →
        (analyzeCombine inclOpt bs us).2 = "medium") ∧
     (3/10 ≤ (analyzeCombine inclOpt bs us).1 ∧ (analyzeCombine inclOpt bs us).1 < 1/2 →
        (analyzeCombine inclOpt bs us).2 = "low") ∧
     ((analyzeCombine inclOpt bs us).1 < 3/10 →
        (analyzeCombine inclOpt bs us).2 = "safe")) := by
  constructor
  · refine ⟨fun hin => ?_, fun hin => ?_, fun hin => ?_⟩ <;>
      simp only [analyzeCombine, hin.1, hin.2, if_true, if_false, if_pos, Bool.false_eq_true]
    · simp [max_eq_right hb, max_assoc]
    · simp [max_eq_right hb]
    · simp [max_eq_right hu]
  · have hlvl : (analyzeCombine inclOpt bs us).2 = riskLevelOf (analyzeCombine inclOpt bs us).1 := rfl
    rw [hlvl]
    exact riskLevelOf_bounds (analyzeCombine inclOpt bs us).1

/-- C9 witness: with the default include list, bullying score 0.8 and
unsafe score 0.5, the combined score is their maximum 0.8 and the level
is high. -/
theorem analyze_risk_score_is_max_of_subresults_witness :
    (analyzeCombine none (4/5 : ℚ) (1/2)).1 = max (4/5 : ℚ) (1/2) ∧
    (analyzeCombine none (4/5 : ℚ) (1/2)).2 = "high" := by
  have h := analyze_risk_score_is_max_of_subresults none (4/5 : ℚ) (1/2)
    (by norm_num) (by norm_num)
  refine ⟨h.1.1 ⟨rfl, rfl⟩, h.2.2.1 ⟨?_, ?_⟩⟩ <;>
    rw [h.1.1 ⟨rfl, rfl⟩] <;> norm_num

/-- C10: the client constructor fails exactly when the configuration is
invalid — the API key must have length at least 10 (hence be non-empty),
the timeout (defaulting to 30000) must lie in [1000, 120000], and the
retries count (defaulting to 3) must lie in [0, 10] — and on success the
stored apiKey, timeout, retries and retryDelay equal the validated inputs
or their defaults. -/
theorem constructor_validates_config (key : String) (o : TuteliqOptions) :
    ((∃ c, mkTuteliq key o = Except.ok c) ↔
      (10 ≤ key.length ∧ 1000 ≤ o.timeout.getD 30000 ∧ o.timeout.getD 30000 ≤ 120000 ∧
       0 ≤ o.retries.getD 3 ∧ o.retries.getD 3 ≤ 10)) ∧
    (∀ c, mkTuteliq key o = Except.ok c →
      c.apiKey = key ∧ c.timeout = o.timeout.getD 30000 ∧
      c.retries = o.retries.getD 3 ∧ c.retryDelay = o.retryDelay.getD 1000) := by
  simp only [mkTuteliq]
  split_ifs with h1 h2 h3 h4
  · subst h1
    refine ⟨⟨fun hex => ?_, fun hconj => ?_⟩, fun c hc => hc.elim⟩
    · obtain ⟨c, hc⟩ := hex
      exact hc.elim
    · have h0 : ("" : String).length = 0 := rfl
      omega
  · refine ⟨⟨fun hex => ?_, fun hconj => ?_⟩, fun c hc => hc.elim⟩
    · obtain ⟨c, hc⟩ := hex
      exact hc.elim
    · omega
  · refine ⟨⟨fun hex => ?_, fun hconj => ?_⟩, fun c hc => hc.elim⟩
    · obtain ⟨c, hc⟩ := hex
      exact hc.elim
    · rcases h3 with h3 | h3 <;> omega
  · refine ⟨⟨fun hex => ?_, fun hconj => ?_⟩, fun c hc => hc.elim⟩
    · obtain ⟨c, hc⟩ := hex
      exact hc.elim
    · rcases h4 with h4 | h4 <;> omega
  · push_neg at h3 h4
    refine ⟨⟨fun _ => ⟨by omega, by omega, by omega, by omega, by omega⟩,
      fun _ => ⟨_, rfl⟩⟩, fun c hc => ?_⟩
    simp only [Except.ok.injEq] at hc
    subst hc
    exact ⟨rfl, rfl, rfl, rfl⟩

/-- C10 witness: a 10-character key with default options constructs
successfully and stores the defaults. -/
theorem constructor_validates_config_witness :
    (∃ c, mkTuteliq "abcdefghij" ({} : TuteliqOptions) = Except.ok c) ∧
    (({ apiKey := "abcdefghij", timeout := 30000, retries := 3,
        retryDelay := 1000 } : ClientConfig).apiKey = "abcdefghij" ∧
     ({ apiKey := "abcdefghij", timeout := 30000, retries := 3,
        retryDelay := 1000 } : ClientConfig).timeout = ({} : TuteliqOptions).timeout.getD 30000 ∧
     ({ apiKey := "abcdefghij", timeout := 30000, retries := 3,
        retryDelay := 1000 } : ClientConfig).retries = ({} : TuteliqOptions).retries.getD 3 ∧
     ({ apiKey := "abcdefghij", timeout := 30000, retries := 3,
        retryDelay := 1000 } : ClientConfig).retryDelay
       = ({} : TuteliqOptions).retryDelay.getD 1000) :=
  ⟨(constructor_validates_config "abcdefghij" {}).1.mpr
     ⟨by decide, by decide, by decide, by decide, by decide⟩,
   (constructor_validates_config "abcdefghij" {}).2
     { apiKey := "abcdefghij", timeout := 30000, retries := 3, retryDelay := 1000 } rfl⟩

end Tuteliq
